/-
Verification of the Terrain Surface Analysis Engine (nest repository).

Shallow embedding of the numerical core of the four lambdas
(slope-calculator, aspect-calculator, profile-analyzer, dem-generator)
over exact real arithmetic, with theorems settling the frozen claims
about classification boundaries, statistics denominators, the RMSE
quality gate, circular mean aspect, profile sampling, grade computation
and the gradient engine.
-/
import Mathlib

open Real

noncomputable section

/-- Python `math.atan2 y x`, embedded as the argument of the complex
number `x + y*i`; range is `(-π, π]` and `atan2 0 x = 0` for `x > 0`. -/
def atan2 (y x : ℝ) : ℝ := Complex.arg ⟨x, y⟩

/-- Python `math.radians d = d * π / 180`. -/
def radians (d : ℝ) : ℝ := d * (π / 180)

/-- Python `math.degrees r = r * 180 / π`. -/
def degrees (r : ℝ) : ℝ := r * (180 / π)

/-- Count of the elements of a list satisfying a predicate; embeds the
boolean-mask counting (`np.sum(mask)`) and the counting loops of the
statistics functions. -/
def countIf (p : ℝ → Prop) [DecidablePred p] : List ℝ → ℕ
  | [] => 0
  | a :: l => (if p a then 1 else 0) + countIf p l

/-- Embedding of `slope_operations.classify_slope`, per cell.  The numpy code writes the
masks `slope <= flat`, `flat < slope <= moderate`, `moderate < slope <= steep`
and `slope > steep` in sequence onto a zero-initialised array; the embedding
reproduces the sequential overwrite semantics. -/
def classify_slope (s flat moderate steep : ℝ) : ℕ :=
  let c0 : ℕ := 0
  let c1 := if s ≤ flat then 1 else c0
  let c2 := if flat < s ∧ s ≤ moderate then 2 else c1
  let c3 := if moderate < s ∧ s ≤ steep then 3 else c2
  if steep < s then 4 else c3

/-- Embedding of `aspect_operations.classify_aspect`, per cell: flat sentinel (negative
angle) to 0, then the eight compass octants 1..8 by the if/elif chain. -/
def classify_aspect (angle : ℝ) : ℕ :=
  if angle < 0 then 0
  else if 337.5 ≤ angle ∨ angle < 22.5 then 1
  else if 22.5 ≤ angle ∧ angle < 67.5 then 2
  else if 67.5 ≤ angle ∧ angle < 112.5 then 3
  else if 112.5 ≤ angle ∧ angle < 157.5 then 4
  else if 157.5 ≤ angle ∧ angle < 202.5 then 5
  else if 202.5 ≤ angle ∧ angle < 247.5 then 6
  else if 247.5 ≤ angle ∧ angle < 292.5 then 7
  else 8

/-- Interior-cell slope of `slope_operations.calculate_slope`: central
differences divided by twice the cell size in meters, then
`100 * sqrt(dx² + dy²)`; cells outside the interior keep the
zero-initialised value.  `e` is the elevation grid as a function of
(row, column), `h`/`w` the grid dimensions, `csx`/`csy` the cell sizes
in meters. -/
def slopeInterior (e : ℕ → ℕ → ℝ) (csx csy : ℝ) (h w y x : ℕ) : ℝ :=
  if 1 ≤ y ∧ y + 1 < h ∧ 1 ≤ x ∧ x + 1 < w then
    let dzdx := (e y (x + 1) - e y (x - 1)) / (2 * csx)
    let dzdy := (e (y + 1) x - e (y - 1) x) / (2 * csy)
    Real.sqrt (dzdx * dzdx + dzdy * dzdy) * 100
  else 0

/-- Row-edge handling of `calculate_slope`: row 0 copies row 1 and the
last row copies the second-to-last row. -/
def slopeRows (e : ℕ → ℕ → ℝ) (csx csy : ℝ) (h w y x : ℕ) : ℝ :=
  if y = 0 then slopeInterior e csx csy h w 1 x
  else if y = h - 1 then slopeInterior e csx csy h w (h - 2) x
  else slopeInterior e csx csy h w y x

/-- Full slope grid of `slope_operations.calculate_slope` (no smoothing):
interior central differences, then edge rows and columns copied from the
nearest interior row/column (columns copied after rows, as in the source,
so corners take the nearest interior cell). -/
def slopeGrid (e : ℕ → ℕ → ℝ) (csx csy : ℝ) (h w y x : ℕ) : ℝ :=
  if x = 0 then slopeRows e csx csy h w y 1
  else if x = w - 1 then slopeRows e csx csy h w y (w - 2)
  else slopeRows e csx csy h w y x

/-- Aspect normalisation of `aspect_operations.calculate_aspect`:
`if aspect_deg < 0: aspect_deg += 360` then
`if aspect_deg >= 360: aspect_deg -= 360`. -/
def normalizeAspect (d : ℝ) : ℝ :=
  let d1 := if d < 0 then d + 360 else d
  if 360 ≤ d1 then d1 - 360 else d1

/-- Interior-cell aspect of `aspect_operations.calculate_aspect`: cells
whose slope is below the flat threshold keep the sentinel -1, otherwise
`normalize(90 - degrees(atan2(dz_dy, -dz_dx)))`; cells outside the
interior keep the sentinel from initialisation.  `slope` is the slope
raster passed alongside the DEM. -/
def aspectInterior (e slope : ℕ → ℕ → ℝ) (flatThr csx csy : ℝ) (h w y x : ℕ) : ℝ :=
  if 1 ≤ y ∧ y + 1 < h ∧ 1 ≤ x ∧ x + 1 < w then
    if slope y x < flatThr then -1
    else
      let dzdx := (e y (x + 1) - e y (x - 1)) / (2 * csx)
      let dzdy := (e (y + 1) x - e (y - 1) x) / (2 * csy)
      normalizeAspect (90 - degrees (atan2 dzdy (-dzdx)))
  else -1

/-- Row-edge handling of `calculate_aspect`: an edge row copies its
interior neighbour when that neighbour is not the sentinel, and keeps -1
otherwise — which is the same value as the neighbour in either case. -/
def aspectRows (e slope : ℕ → ℕ → ℝ) (flatThr csx csy : ℝ) (h w y x : ℕ) : ℝ :=
  if y = 0 then aspectInterior e slope flatThr csx csy h w 1 x
  else if y = h - 1 then aspectInterior e slope flatThr csx csy h w (h - 2) x
  else aspectInterior e slope flatThr csx csy h w y x

/-- Full aspect grid of `aspect_operations.calculate_aspect`: interior
cells computed, edge rows then edge columns copied from the nearest
interior neighbour. -/
def aspectGrid (e slope : ℕ → ℕ → ℝ) (flatThr csx csy : ℝ) (h w y x : ℕ) : ℝ :=
  if x = 0 then aspectRows e slope flatThr csx csy h w y 1
  else if x = w - 1 then aspectRows e slope flatThr csx csy h w y (w - 2)
  else aspectRows e slope flatThr csx csy h w y x

/-- Embedding of the `aspect-calculator` circular-mean helper: `None` on the empty
list, otherwise `degrees(atan2(sum_sin / n, sum_cos / n))` with 360 added
when negative. -/
def circularMean (aspects : List ℝ) : Option ℝ :=
  if aspects = [] then none
  else
    let n : ℝ := aspects.length
    let sumSin := (aspects.map (fun a => Real.sin (radians a))).sum
    let sumCos := (aspects.map (fun a => Real.cos (radians a))).sum
    let meanDeg := degrees (atan2 (sumSin / n) (sumCos / n))
    some (if meanDeg < 0 then meanDeg + 360 else meanDeg)

/-- The `valid_aspects` accumulation of
`aspect_operations.calculate_aspect_statistics`: angles that are not
negative (negative is the flat sentinel). -/
def validAspects : List ℝ → List ℝ
  | [] => []
  | a :: l => if a < 0 then validAspects l else a :: validAspects l

/-- Percentage record of `aspect_operations.calculate_aspect_statistics`
(the fields the claims are about). -/
structure AspectStats where
  flatPercent : ℝ
  northPercent : ℝ
  northeastPercent : ℝ
  eastPercent : ℝ
  southeastPercent : ℝ
  southPercent : ℝ
  southwestPercent : ℝ
  westPercent : ℝ
  northwestPercent : ℝ
  circularMeanAspect : Option ℝ

/-- Embedding of `aspect_operations.calculate_aspect_statistics` on the flattened
aspect raster: every percentage divides by `total_cells = aspect.size`,
the full grid size; the per-octant counting conditions of the loop are
exactly the branches of `classify_aspect`. -/
def calculate_aspect_statistics (aspects : List ℝ) : AspectStats :=
  let total : ℝ := aspects.length
  { flatPercent := (countIf (fun a => a < 0) aspects : ℝ) / total * 100
    northPercent := (countIf (fun a => classify_aspect a = 1) aspects : ℝ) / total * 100
    northeastPercent := (countIf (fun a => classify_aspect a = 2) aspects : ℝ) / total * 100
    eastPercent := (countIf (fun a => classify_aspect a = 3) aspects : ℝ) / total * 100
    southeastPercent := (countIf (fun a => classify_aspect a = 4) aspects : ℝ) / total * 100
    southPercent := (countIf (fun a => classify_aspect a = 5) aspects : ℝ) / total * 100
    southwestPercent := (countIf (fun a => classify_aspect a = 6) aspects : ℝ) / total * 100
    westPercent := (countIf (fun a => classify_aspect a = 7) aspects : ℝ) / total * 100
    northwestPercent := (countIf (fun a => classify_aspect a = 8) aspects : ℝ) / total * 100
    circularMeanAspect := circularMean (validAspects aspects) }

/-- Percentage record of `slope_operations.calculate_slope_statistics`
(the fields the claims are about). -/
structure SlopeStats where
  flatPercent : ℝ
  moderatePercent : ℝ
  steepPercent : ℝ
  verySteepPercent : ℝ
  unbuildablePercent : ℝ

/-- Embedding of `slope_operations.calculate_slope_statistics` on the flattened slope
raster: nodata cells (-9999) are removed first, and every percentage
divides by `total_cells = valid_slope.size`, the count of the remaining
valid cells. -/
def calculate_slope_statistics (slopes : List ℝ)
    (flat moderate steep maxBuildable : ℝ) : SlopeStats :=
  let valid : ℝ := countIf (fun s => s ≠ -9999) slopes
  { flatPercent :=
      (countIf (fun s => s ≠ -9999 ∧ s ≤ flat) slopes : ℝ) / valid * 100
    moderatePercent :=
      (countIf (fun s => s ≠ -9999 ∧ flat < s ∧ s ≤ moderate) slopes : ℝ) / valid * 100
    steepPercent :=
      (countIf (fun s => s ≠ -9999 ∧ moderate < s ∧ s ≤ steep) slopes : ℝ) / valid * 100
    verySteepPercent :=
      (countIf (fun s => s ≠ -9999 ∧ steep < s) slopes : ℝ) / valid * 100
    unbuildablePercent :=
      (countIf (fun s => s ≠ -9999 ∧ maxBuildable < s) slopes : ℝ) / valid * 100 }

/-- Embedding of `profile_operations.ProfilePoint`. -/
structure ProfilePoint where
  distance : ℝ
  elevation : ℝ
  lat : ℝ
  lng : ℝ
  grade : ℝ

/-- Grade assigned to the point of index `i` by
`profile_operations.calculate_grades`: 0 for the first point, otherwise
`(elevation change / horizontal distance) * 100` from the previous point
when the horizontal distance is positive, else 0. -/
def gradeAt (ps : List ProfilePoint) (i : ℕ) : ℝ :=
  if i = 0 then 0
  else
    match ps.get? (i - 1), ps.get? i with
    | some prev, some curr =>
        let dd := curr.distance - prev.distance
        if dd > 0 then (curr.elevation - prev.elevation) / dd * 100 else 0
    | _, _ => 0

/-- Embedding of `profile_operations.calculate_grades`: each point keeps its fields
with the grade replaced (the loop only ever writes the `grade` field, so
the distances and elevations read from `prev` are the input ones). -/
def calculate_grades (ps : List ProfilePoint) : List ProfilePoint :=
  (List.range ps.length).map fun i =>
    match ps.get? i with
    | some p => { p with grade := gradeAt ps i }
    | none => { distance := 0, elevation := 0, lat := 0, lng := 0, grade := 0 }

/-- Consecutive elevation differences of a profile, in order. -/
def elevDeltas (ps : List ProfilePoint) : List ℝ :=
  List.zipWith (fun p q => q.elevation - p.elevation) ps ps.tail

/-- Elevation-gain accumulation of
`profile_operations.calculate_profile_statistics`: positive consecutive
elevation changes summed. -/
def elevationGain (ps : List ProfilePoint) : ℝ :=
  (elevDeltas ps).foldl (fun acc d => if d > 0 then acc + d else acc) 0

/-- Elevation-loss accumulation of `calculate_profile_statistics`:
absolute values of the non-positive consecutive elevation changes
summed. -/
def elevationLoss (ps : List ProfilePoint) : ℝ :=
  (elevDeltas ps).foldl (fun acc d => if d > 0 then acc else acc + |d|) 0

/-- Field `netElevationChange` of `calculate_profile_statistics`:
`profile_points[-1].elevation - profile_points[0].elevation`. -/
def netElevationChange (ps : List ProfilePoint) (h : ps ≠ []) : ℝ :=
  (ps.getLast h).elevation - (ps.head h).elevation

/-- Embedding of `profile_operations.haversine_distance` (Earth radius 6,371,000 m). -/
def haversine_distance (lat1 lng1 lat2 lng2 : ℝ) : ℝ :=
  let r : ℝ := 6371000
  let phi1 := radians lat1
  let phi2 := radians lat2
  let dphi := radians (lat2 - lat1)
  let dlam := radians (lng2 - lng1)
  let a := Real.sin (dphi / 2) ^ 2 +
    Real.cos phi1 * Real.cos phi2 * Real.sin (dlam / 2) ^ 2
  let c := 2 * atan2 (Real.sqrt a) (Real.sqrt (1 - a))
  r * c

/-- Embedding of `profile_operations.calculate_line_length`: sum of the haversine
distances of consecutive coordinate pairs; a coordinate is `(lng, lat)`
as in the GeoJSON input. -/
def calculate_line_length : List (ℝ × ℝ) → ℝ
  | [] => 0
  | [_] => 0
  | a :: b :: rest =>
      haversine_distance a.2 a.1 b.2 b.1 + calculate_line_length (b :: rest)

/-- Number of samples of `profile_operations.sample_dem_along_line`:
`int(math.ceil(total_distance / sample_interval)) + 1`. -/
def numSamples (total interval : ℝ) : ℕ :=
  (⌈total / interval⌉).toNat + 1

/-- The target sample distances of `sample_dem_along_line`:
`min(i * sample_interval, total_distance)` for `i` below the number of
samples.  (The DEM lookup attached to each distance is I/O and is not
part of the distance schedule.) -/
def sampleDistances (total interval : ℝ) : List ℝ :=
  (List.range (numSamples total interval)).map
    fun i : ℕ => min ((i : ℝ) * interval) total

/-- Outcome of one `dem-generator` handler run as recorded in the job
status: completion, or a failure carrying the surfaced error type name
and message. -/
inductive JobResult where
  | completed (statusCode : ℕ)
  | failed (errorType : String) (errorMessage : String)
  deriving DecidableEq

/-- Error type name of a failed run, `type(e).__name__` in the handler's
except branch. -/
def JobResult.errorTypeName : JobResult → Option String
  | .completed _ => none
  | .failed t _ => some t

/-- Control flow of `dem-generator/lambda_function.handler` restricted to
the two failure conditions the claim is about, with contour retrieval and
`validate_dem` abstracted to the number of contours fetched and the RMSE
they produce: an empty contour set raises
`ValueError("No contour data found for project")`; an RMSE strictly above
2.0 raises `ValueError("DEM validation failed: ...")`; both are caught by
the same except branch which records `type(e).__name__` and the message. -/
def demHandlerResult (numContours : ℕ) (rmse : ℝ) : JobResult :=
  if numContours = 0 then
    .failed "ValueError" "No contour data found for project"
  else if rmse > 2.0 then
    .failed "ValueError" "DEM validation failed: RMSE exceeds threshold"
  else
    .completed 200

theorem atan2_le_pi (y x : ℝ) : atan2 y x ≤ π :=
  Complex.arg_le_pi _

theorem neg_pi_lt_atan2 (y x : ℝ) : -π < atan2 y x :=
  Complex.neg_pi_lt_arg _

theorem atan2_nonneg (y x : ℝ) (hy : 0 ≤ y) : 0 ≤ atan2 y x :=
  Complex.arg_nonneg_iff.mpr hy

theorem atan2_zero_of_nonneg (x : ℝ) (hx : 0 ≤ x) : atan2 0 x = 0 :=
  Complex.arg_ofReal_of_nonneg hx

theorem degrees_zero : degrees 0 = 0 := by
  simp [degrees]

theorem degrees_le_of_le_pi (r : ℝ) (h : r ≤ π) : degrees r ≤ 180 := by
  have hπ := Real.pi_pos
  have h1 : r * (180 / π) ≤ π * (180 / π) :=
    mul_le_mul_of_nonneg_right h (by positivity)
  have h2 : π * (180 / π) = 180 := by
    field_simp
  calc degrees r = r * (180 / π) := rfl
    _ ≤ π * (180 / π) := h1
    _ = 180 := h2

theorem neg_lt_degrees_of_neg_pi_lt (r : ℝ) (h : -π < r) : -180 < degrees r := by
  have hπ := Real.pi_pos
  have h1 : (-π) * (180 / π) < r * (180 / π) :=
    mul_lt_mul_of_pos_right h (by positivity)
  have h2 : (-π) * (180 / π) = -180 := by
    field_simp
    ring
  calc (-180 : ℝ) = (-π) * (180 / π) := h2.symm
    _ < r * (180 / π) := h1
    _ = degrees r := rfl

theorem normalizeAspect_mem (d : ℝ) (h1 : -360 ≤ d) (h2 : d < 360) :
    0 ≤ normalizeAspect d ∧ normalizeAspect d < 360 := by
  simp only [normalizeAspect]
  split_ifs <;> constructor <;> linarith

theorem classify_slope_eq_iff (s f m st : ℝ) (hfm : f < m) (hmst : m < st) :
    (classify_slope s f m st = 1 ↔ s ≤ f) ∧
    (classify_slope s f m st = 2 ↔ f < s ∧ s ≤ m) ∧
    (classify_slope s f m st = 3 ↔ m < s ∧ s ≤ st) ∧
    (classify_slope s f m st = 4 ↔ st < s) := by
  have e : classify_slope s f m st =
      if st < s then 4
      else if m < s ∧ s ≤ st then 3
      else if f < s ∧ s ≤ m then 2
      else if s ≤ f then 1 else 0 := rfl
  rcases le_or_lt s f with h1 | h1
  · rw [e, if_neg (by intro hc; linarith), if_neg (by rintro ⟨hc, -⟩; linarith),
      if_neg (by rintro ⟨hc, -⟩; linarith), if_pos h1]
    exact ⟨⟨fun _ => h1, fun _ => rfl⟩,
      ⟨fun hh => by simp at hh, fun hh => (show False by linarith [hh.1]).elim⟩,
      ⟨fun hh => by simp at hh, fun hh => (show False by linarith [hh.1]).elim⟩,
      ⟨fun hh => by simp at hh, fun hh => (show False by linarith).elim⟩⟩
  · rcases le_or_lt s m with h2 | h2
    · rw [e, if_neg (by intro hc; linarith), if_neg (by rintro ⟨hc, -⟩; linarith),
        if_pos ⟨h1, h2⟩]
      exact ⟨⟨fun hh => by simp at hh, fun hh => (show False by linarith).elim⟩,
        ⟨fun _ => ⟨h1, h2⟩, fun _ => rfl⟩,
        ⟨fun hh => by simp at hh, fun hh => (show False by linarith [hh.1]).elim⟩,
        ⟨fun hh => by simp at hh, fun hh => (show False by linarith).elim⟩⟩
    · rcases le_or_lt s st with h3 | h3
      · rw [e, if_neg (by intro hc; linarith), if_pos ⟨h2, h3⟩]
        exact ⟨⟨fun hh => by simp at hh, fun hh => (show False by linarith).elim⟩,
          ⟨fun hh => by simp at hh, fun hh => (show False by linarith [hh.2]).elim⟩,
          ⟨fun _ => ⟨h2, h3⟩, fun _ => rfl⟩,
          ⟨fun hh => by simp at hh, fun hh => (show False by linarith).elim⟩⟩
      · rw [e, if_pos h3]
        exact ⟨⟨fun hh => by simp at hh, fun hh => (show False by linarith).elim⟩,
          ⟨fun hh => by simp at hh, fun hh => (show False by linarith [hh.2]).elim⟩,
          ⟨fun hh => by simp at hh, fun hh => (show False by linarith [hh.2]).elim⟩,
          ⟨fun _ => h3, fun _ => rfl⟩⟩

theorem classify_slope_mem (s f m st : ℝ) (hfm : f < m) (hmst : m < st) :
    1 ≤ classify_slope s f m st ∧ classify_slope s f m st ≤ 4 := by
  obtain ⟨i1, i2, i3, i4⟩ := classify_slope_eq_iff s f m st hfm hmst
  rcases le_or_lt s f with h | h
  · rw [i1.mpr h]
    omega
  · rcases le_or_lt s m with h2 | h2
    · rw [i2.mpr ⟨h, h2⟩]
      omega
    · rcases le_or_lt s st with h3 | h3
      · rw [i3.mpr ⟨h2, h3⟩]
        omega
      · rw [i4.mpr h3]
        omega

theorem classify_aspect_le_eight (a : ℝ) : classify_aspect a ≤ 8 := by
  simp only [classify_aspect]
  split_ifs <;> norm_num

theorem classify_aspect_eq_zero_iff (a : ℝ) : classify_aspect a = 0 ↔ a < 0 := by
  simp only [classify_aspect]
  split_ifs with h0 h1 h2 h3 h4 h5 h6 h7 <;> simp [h0]

set_option maxHeartbeats 1000000 in
theorem classify_aspect_bins (a : ℝ) (ha : 0 ≤ a) :
    (classify_aspect a = 1 ↔ 337.5 ≤ a ∨ a < 22.5) ∧
    (classify_aspect a = 2 ↔ 22.5 ≤ a ∧ a < 67.5) ∧
    (classify_aspect a = 3 ↔ 67.5 ≤ a ∧ a < 112.5) ∧
    (classify_aspect a = 4 ↔ 112.5 ≤ a ∧ a < 157.5) ∧
    (classify_aspect a = 5 ↔ 157.5 ≤ a ∧ a < 202.5) ∧
    (classify_aspect a = 6 ↔ 202.5 ≤ a ∧ a < 247.5) ∧
    (classify_aspect a = 7 ↔ 247.5 ≤ a ∧ a < 292.5) ∧
    (classify_aspect a = 8 ↔ 292.5 ≤ a ∧ a < 337.5) := by
  simp only [classify_aspect]
  split_ifs with h0 h1 h2 h3 h4 h5 h6 h7
  · exact absurd h0 (not_lt.mpr ha)
  · refine ⟨?_, ?_, ?_, ?_, ?_, ?_, ?_, ?_⟩ <;> constructor <;> intro hh <;>
      first
      | rfl
      | exact h1
      | (exfalso; omega)
      | (exfalso; rcases h1 with h1 | h1 <;> linarith [hh.1, hh.2])
  · obtain ⟨lo, hi⟩ := h2
    refine ⟨?_, ?_, ?_, ?_, ?_, ?_, ?_, ?_⟩ <;> constructor <;> intro hh <;>
      first
      | rfl
      | exact ⟨lo, hi⟩
      | (exfalso; omega)
      | (exfalso; rcases hh with hh | hh <;> linarith)
      | (exfalso; linarith [hh.1, hh.2])
  · obtain ⟨lo, hi⟩ := h3
    refine ⟨?_, ?_, ?_, ?_, ?_, ?_, ?_, ?_⟩ <;> constructor <;> intro hh <;>
      first
      | rfl
      | exact ⟨lo, hi⟩
      | (exfalso; omega)
      | (exfalso; rcases hh with hh | hh <;> linarith)
      | (exfalso; linarith [hh.1, hh.2])
  · obtain ⟨lo, hi⟩ := h4
    refine ⟨?_, ?_, ?_, ?_, ?_, ?_, ?_, ?_⟩ <;> constructor <;> intro hh <;>
      first
      | rfl
      | exact ⟨lo, hi⟩
      | (exfalso; omega)
      | (exfalso; rcases hh with hh | hh <;> linarith)
      | (exfalso; linarith [hh.1, hh.2])
  · obtain ⟨lo, hi⟩ := h5
    refine ⟨?_, ?_, ?_, ?_, ?_, ?_, ?_, ?_⟩ <;> constructor <;> intro hh <;>
      first
      | rfl
      | exact ⟨lo, hi⟩
      | (exfalso; omega)
      | (exfalso; rcases hh with hh | hh <;> linarith)
      | (exfalso; linarith [hh.1, hh.2])
  · obtain ⟨lo, hi⟩ := h6
    refine ⟨?_, ?_, ?_, ?_, ?_, ?_, ?_, ?_⟩ <;> constructor <;> intro hh <;>
      first
      | rfl
      | exact ⟨lo, hi⟩
      | (exfalso; omega)
      | (exfalso; rcases hh with hh | hh <;> linarith)
      | (exfalso; linarith [hh.1, hh.2])
  · obtain ⟨lo, hi⟩ := h7
    refine ⟨?_, ?_, ?_, ?_, ?_, ?_, ?_, ?_⟩ <;> constructor <;> intro hh <;>
      first
      | rfl
      | exact ⟨lo, hi⟩
      | (exfalso; omega)
      | (exfalso; rcases hh with hh | hh <;> linarith)
      | (exfalso; linarith [hh.1, hh.2])
  · push_neg at h1 h2 h3 h4 h5 h6 h7
    have b2 := h2 h1.2
    have b3 := h3 b2
    have b4 := h4 b3
    have b5 := h5 b4
    have b6 := h6 b5
    have b7 := h7 b6
    refine ⟨?_, ?_, ?_, ?_, ?_, ?_, ?_, ?_⟩ <;> constructor <;> intro hh <;>
      first
      | rfl
      | exact ⟨b7, h1.1⟩
      | (exfalso; omega)
      | (exfalso; rcases hh with hh | hh <;> linarith [h1.1, h1.2])
      | (exfalso; linarith [hh.1, hh.2])

/-- C1 counterexample: with thresholds flat=5, moderate=15, steep=25, the
slope value 5 (exactly the flat threshold) is classified Flat (class 1)
by the code, whereas the claim requires a slope equal to a threshold to
belong to the higher class (Moderate, class 2, since flat ≤ 5 < moderate). -/
theorem classify_slope_threshold_counterexample :
    classify_slope 5 5 15 25 = 1 ∧
    ¬ (classify_slope 5 5 15 25 = 2 ↔ (5:ℝ) ≤ 5 ∧ (5:ℝ) < 15) := by
  have e : classify_slope 5 5 15 25 =
      if (25:ℝ) < 5 then 4
      else if (15:ℝ) < 5 ∧ (5:ℝ) ≤ 25 then 3
      else if (5:ℝ) < 5 ∧ (5:ℝ) ≤ 15 then 2
      else if (5:ℝ) ≤ 5 then 1 else 0 := rfl
  have h : classify_slope 5 5 15 25 = 1 := by
    rw [e, if_neg (by norm_num), if_neg (by norm_num), if_neg (by norm_num),
      if_pos (by norm_num)]
  refine ⟨h, fun hiff => ?_⟩
  have h2 := hiff.mpr (by norm_num)
  rw [h] at h2
  exact absurd h2 (by norm_num)

/-- C1 (amended): steepness classification uses half-open intervals with
the upper bound of each class inclusive: for ascending thresholds
flat < moderate < steep, a slope s is Flat iff s ≤ flat, Moderate iff
flat < s ≤ moderate, Steep iff moderate < s ≤ steep, and VerySteep iff
s > steep — a slope exactly equal to a threshold belongs to the lower
class. -/
theorem steepness_halfopen_boundaries (s f m st : ℝ) (hfm : f < m) (hmst : m < st) :
    (classify_slope s f m st = 1 ↔ s ≤ f) ∧
    (classify_slope s f m st = 2 ↔ f < s ∧ s ≤ m) ∧
    (classify_slope s f m st = 3 ↔ m < s ∧ s ≤ st) ∧
    (classify_slope s f m st = 4 ↔ st < s) :=
  classify_slope_eq_iff s f m st hfm hmst

/-- Witness for C1 at slope 7, thresholds 5/15/25. -/
theorem steepness_halfopen_boundaries_witness :
    (5:ℝ) < 15 ∧ (15:ℝ) < 25 ∧
    (classify_slope 7 5 15 25 = 2 ↔ (5:ℝ) < 7 ∧ (7:ℝ) ≤ 15) :=
  ⟨by norm_num, by norm_num,
    (steepness_halfopen_boundaries 7 5 15 25 (by norm_num) (by norm_num)).2.1⟩

/-- C8: classification is exhaustive and exclusive — every angle in
[0,360) is assigned exactly one of the eight compass directions, with
angle ≥ 337.5 or < 22.5 mapped to N and the remaining angles falling in
eight consecutive 45°-wide half-open bins; and for ascending thresholds
every slope value is assigned exactly one of the four steepness
classes. -/
theorem classification_exhaustive_exclusive :
    (∀ a : ℝ, 0 ≤ a → a < 360 →
      (1 ≤ classify_aspect a ∧ classify_aspect a ≤ 8) ∧
      (classify_aspect a = 1 ↔ 337.5 ≤ a ∨ a < 22.5) ∧
      (classify_aspect a = 2 ↔ 22.5 ≤ a ∧ a < 67.5) ∧
      (classify_aspect a = 3 ↔ 67.5 ≤ a ∧ a < 112.5) ∧
      (classify_aspect a = 4 ↔ 112.5 ≤ a ∧ a < 157.5) ∧
      (classify_aspect a = 5 ↔ 157.5 ≤ a ∧ a < 202.5) ∧
      (classify_aspect a = 6 ↔ 202.5 ≤ a ∧ a < 247.5) ∧
      (classify_aspect a = 7 ↔ 247.5 ≤ a ∧ a < 292.5) ∧
      (classify_aspect a = 8 ↔ 292.5 ≤ a ∧ a < 337.5)) ∧
    (∀ s f m st : ℝ, f < m → m < st →
      1 ≤ classify_slope s f m st ∧ classify_slope s f m st ≤ 4) := by
  constructor
  · intro a ha _
    refine ⟨⟨?_, classify_aspect_le_eight a⟩, classify_aspect_bins a ha⟩
    have h0 : classify_aspect a ≠ 0 :=
      fun hz => absurd ((classify_aspect_eq_zero_iff a).mp hz) (not_lt.mpr ha)
    omega
  · exact fun s f m st hfm hmst => classify_slope_mem s f m st hfm hmst

/-- Witness for C8 at angle 100 and slope 30 with thresholds 5/15/25. -/
theorem classification_exhaustive_exclusive_witness :
    (1 ≤ classify_aspect 100 ∧ classify_aspect 100 ≤ 8) ∧
    (1 ≤ classify_slope 30 5 15 25 ∧ classify_slope 30 5 15 25 ≤ 4) :=
  ⟨(classification_exhaustive_exclusive.1 100 (by norm_num) (by norm_num)).1,
   classification_exhaustive_exclusive.2 30 5 15 25 (by norm_num) (by norm_num)⟩

theorem aspect_indicator (a : ℝ) :
    (if a < 0 then (1:ℕ) else 0)
      + (if classify_aspect a = 1 then 1 else 0)
      + (if classify_aspect a = 2 then 1 else 0)
      + (if classify_aspect a = 3 then 1 else 0)
      + (if classify_aspect a = 4 then 1 else 0)
      + (if classify_aspect a = 5 then 1 else 0)
      + (if classify_aspect a = 6 then 1 else 0)
      + (if classify_aspect a = 7 then 1 else 0)
      + (if classify_aspect a = 8 then 1 else 0) = 1 := by
  have hle := classify_aspect_le_eight a
  rw [if_congr (classify_aspect_eq_zero_iff a).symm rfl rfl]
  obtain ⟨n, hn⟩ : ∃ n, classify_aspect a = n := ⟨_, rfl⟩
  rw [hn] at hle ⊢
  interval_cases n <;> rfl

theorem countIf_aspect_partition (l : List ℝ) :
    countIf (fun a => a < 0) l
      + countIf (fun a => classify_aspect a = 1) l
      + countIf (fun a => classify_aspect a = 2) l
      + countIf (fun a => classify_aspect a = 3) l
      + countIf (fun a => classify_aspect a = 4) l
      + countIf (fun a => classify_aspect a = 5) l
      + countIf (fun a => classify_aspect a = 6) l
      + countIf (fun a => classify_aspect a = 7) l
      + countIf (fun a => classify_aspect a = 8) l = l.length := by
  induction l with
  | nil => rfl
  | cons a t ih =>
    simp only [countIf, List.length_cons]
    have hone := aspect_indicator a
    omega

theorem slope_indicator (s f m st : ℝ) (hfm : f < m) (hmst : m < st) :
    (if s ≠ -9999 ∧ s ≤ f then (1:ℕ) else 0)
      + (if s ≠ -9999 ∧ f < s ∧ s ≤ m then 1 else 0)
      + (if s ≠ -9999 ∧ m < s ∧ s ≤ st then 1 else 0)
      + (if s ≠ -9999 ∧ st < s then 1 else 0)
    = (if s ≠ -9999 then 1 else 0) := by
  by_cases hs : s = -9999
  · simp [hs]
  · simp only [ne_eq, hs, not_false_eq_true, true_and, if_true]
    rcases le_or_lt s f with h1 | h1
    · rw [if_pos h1, if_neg (by rintro ⟨hc, -⟩; linarith),
        if_neg (by rintro ⟨hc, -⟩; linarith), if_neg (by intro hc; linarith)]
    · rcases le_or_lt s m with h2 | h2
      · rw [if_neg (by intro hc; linarith), if_pos ⟨h1, h2⟩,
          if_neg (by rintro ⟨hc, -⟩; linarith), if_neg (by intro hc; linarith)]
      · rcases le_or_lt s st with h3 | h3
        · rw [if_neg (by intro hc; linarith), if_neg (by rintro ⟨-, hc⟩; linarith),
            if_pos ⟨h2, h3⟩, if_neg (by intro hc; linarith)]
        · rw [if_neg (by intro hc; linarith), if_neg (by rintro ⟨-, hc⟩; linarith),
            if_neg (by rintro ⟨-, hc⟩; linarith), if_pos h3]

theorem countIf_slope_partition (l : List ℝ) (f m st : ℝ)
    (hfm : f < m) (hmst : m < st) :
    countIf (fun s => s ≠ -9999 ∧ s ≤ f) l
      + countIf (fun s => s ≠ -9999 ∧ f < s ∧ s ≤ m) l
      + countIf (fun s => s ≠ -9999 ∧ m < s ∧ s ≤ st) l
      + countIf (fun s => s ≠ -9999 ∧ st < s) l
    = countIf (fun s => s ≠ -9999) l := by
  induction l with
  | nil => rfl
  | cons a t ih =>
    simp only [countIf]
    have hone := slope_indicator a f m st hfm hmst
    omega

/-- C2 counterexample: on the slope grid [-9999, 3] (one nodata cell, one
valid cell of slope 3) with thresholds flat=5, moderate=15, steep=25, the
code reports flatPercent = 100, dividing by the single valid cell; the
claim requires division by the full grid count (2 cells), which would
give 50. -/
theorem slope_percent_denominator_counterexample :
    (calculate_slope_statistics [-9999, 3] 5 15 25 25).flatPercent = 100 ∧
    (calculate_slope_statistics [-9999, 3] 5 15 25 25).flatPercent ≠ 1 / 2 * 100 := by
  have e1 : countIf (fun s => s ≠ -9999 ∧ s ≤ (5:ℝ)) [(-9999:ℝ), 3] = 1 := by
    simp only [countIf]
    rw [if_neg (by norm_num), if_pos (by norm_num)]
  have e2 : countIf (fun s => s ≠ (-9999:ℝ)) [(-9999:ℝ), 3] = 1 := by
    simp only [countIf]
    rw [if_neg (by norm_num), if_pos (by norm_num)]
  have h : (calculate_slope_statistics [-9999, 3] 5 15 25 25).flatPercent = 100 := by
    simp only [calculate_slope_statistics]
    rw [e1, e2]
    norm_num
  refine ⟨h, ?_⟩
  rw [h]
  norm_num

/-- C2 (amended): the aspect statistics percentages are computed with the
full grid cell count (flat and nodata cells included) as denominator, so
the flat percentage and the eight octant percentages of any non-empty
grid sum to 100; the slope statistics percentages instead use the count
of valid (non -9999) cells as denominator, so the four steepness
percentages sum to 100 whenever at least one valid cell exists, even on
grids that also contain nodata cells. -/
theorem statistics_percent_denominators :
    (∀ l : List ℝ, l ≠ [] →
      (calculate_aspect_statistics l).flatPercent
        + (calculate_aspect_statistics l).northPercent
        + (calculate_aspect_statistics l).northeastPercent
        + (calculate_aspect_statistics l).eastPercent
        + (calculate_aspect_statistics l).southeastPercent
        + (calculate_aspect_statistics l).southPercent
        + (calculate_aspect_statistics l).southwestPercent
        + (calculate_aspect_statistics l).westPercent
        + (calculate_aspect_statistics l).northwestPercent = 100) ∧
    (∀ (l : List ℝ) (f m st mb : ℝ), f < m → m < st →
      0 < countIf (fun s => s ≠ -9999) l →
      (calculate_slope_statistics l f m st mb).flatPercent
        + (calculate_slope_statistics l f m st mb).moderatePercent
        + (calculate_slope_statistics l f m st mb).steepPercent
        + (calculate_slope_statistics l f m st mb).verySteepPercent = 100) := by
  constructor
  · intro l hne
    have hpart := countIf_aspect_partition l
    have h0 : 0 < l.length := List.length_pos.mpr hne
    have hn : ((l.length : ℝ)) ≠ 0 := ne_of_gt (by exact_mod_cast h0)
    have hcast :
        ((countIf (fun a => a < 0) l : ℝ))
          + (countIf (fun a => classify_aspect a = 1) l : ℝ)
          + (countIf (fun a => classify_aspect a = 2) l : ℝ)
          + (countIf (fun a => classify_aspect a = 3) l : ℝ)
          + (countIf (fun a => classify_aspect a = 4) l : ℝ)
          + (countIf (fun a => classify_aspect a = 5) l : ℝ)
          + (countIf (fun a => classify_aspect a = 6) l : ℝ)
          + (countIf (fun a => classify_aspect a = 7) l : ℝ)
          + (countIf (fun a => classify_aspect a = 8) l : ℝ)
        = (l.length : ℝ) := by
      exact_mod_cast hpart
    simp only [calculate_aspect_statistics]
    field_simp
    linarith [hcast]
  · intro l f m st mb hfm hmst hv
    have hpart := countIf_slope_partition l f m st hfm hmst
    have hn : ((countIf (fun s => s ≠ -9999) l : ℝ)) ≠ 0 :=
      ne_of_gt (by exact_mod_cast hv)
    have hcast :
        ((countIf (fun s => s ≠ -9999 ∧ s ≤ f) l : ℝ))
          + (countIf (fun s => s ≠ -9999 ∧ f < s ∧ s ≤ m) l : ℝ)
          + (countIf (fun s => s ≠ -9999 ∧ m < s ∧ s ≤ st) l : ℝ)
          + (countIf (fun s => s ≠ -9999 ∧ st < s) l : ℝ)
        = (countIf (fun s => s ≠ -9999) l : ℝ) := by
      exact_mod_cast hpart
    simp only [calculate_slope_statistics]
    field_simp
    linarith [hcast]

/-- Witness for C2 on the one-cell grids [100] (aspect) and [3] (slope,
thresholds 5/15/25). -/
theorem statistics_percent_denominators_witness :
    ((calculate_aspect_statistics [(100:ℝ)]).flatPercent
      + (calculate_aspect_statistics [(100:ℝ)]).northPercent
      + (calculate_aspect_statistics [(100:ℝ)]).northeastPercent
      + (calculate_aspect_statistics [(100:ℝ)]).eastPercent
      + (calculate_aspect_statistics [(100:ℝ)]).southeastPercent
      + (calculate_aspect_statistics [(100:ℝ)]).southPercent
      + (calculate_aspect_statistics [(100:ℝ)]).southwestPercent
      + (calculate_aspect_statistics [(100:ℝ)]).westPercent
      + (calculate_aspect_statistics [(100:ℝ)]).northwestPercent = 100) ∧
    ((calculate_slope_statistics [(3:ℝ)] 5 15 25 25).flatPercent
      + (calculate_slope_statistics [(3:ℝ)] 5 15 25 25).moderatePercent
      + (calculate_slope_statistics [(3:ℝ)] 5 15 25 25).steepPercent
      + (calculate_slope_statistics [(3:ℝ)] 5 15 25 25).verySteepPercent = 100) :=
  ⟨statistics_percent_denominators.1 [100] (by simp),
   statistics_percent_denominators.2 [3] 5 15 25 25 (by norm_num) (by norm_num)
     (by simp only [countIf]
         rw [if_pos (by norm_num)]
         norm_num)⟩

/-- C3 counterexample: the quality-gate failure (run with contours
present and RMSE 3) and the generic empty-contour input error (run with
no contours) surface the very same failure type name, ValueError — the
quality gate is not a failure type distinct from generic input errors. -/
theorem rmse_failure_type_counterexample :
    (demHandlerResult 5 3).errorTypeName = some "ValueError" ∧
    (demHandlerResult 0 0).errorTypeName = some "ValueError" ∧
    (demHandlerResult 5 3).errorTypeName = (demHandlerResult 0 0).errorTypeName := by
  have h1 : demHandlerResult 5 3 =
      .failed "ValueError" "DEM validation failed: RMSE exceeds threshold" := by
    simp only [demHandlerResult]
    rw [if_neg (by norm_num), if_pos (by norm_num)]
  have h2 : demHandlerResult 0 0 =
      .failed "ValueError" "No contour data found for project" := by
    simp only [demHandlerResult]
    rw [if_pos trivial]
  rw [h1, h2]
  exact ⟨rfl, rfl, rfl⟩

/-- C3 (amended): with a non-empty contour set, the DEM-generation job
fails exactly when validation RMSE exceeds 2.0 m — a hard gate, the run
completes otherwise — and the quality-gate failure carries a distinct
failure message, though the same exception type (ValueError) as generic
input errors such as an empty contour set. -/
theorem rmse_hard_gate (n : ℕ) (rmse : ℝ) (hn : 0 < n) :
    (2.0 < rmse →
      demHandlerResult n rmse =
        .failed "ValueError" "DEM validation failed: RMSE exceeds threshold") ∧
    (rmse ≤ 2.0 → demHandlerResult n rmse = .completed 200) ∧
    ("DEM validation failed: RMSE exceeds threshold" ≠
      "No contour data found for project") := by
  refine ⟨fun hr => ?_, fun hr => ?_, by decide⟩
  · simp only [demHandlerResult]
    rw [if_neg (Nat.pos_iff_ne_zero.mp hn), if_pos hr]
  · simp only [demHandlerResult]
    rw [if_neg (Nat.pos_iff_ne_zero.mp hn), if_neg (not_lt.mpr hr)]

/-- Witness for C3 at one contour with RMSE 3 (gate fires) and RMSE 1
(run completes). -/
theorem rmse_hard_gate_witness :
    demHandlerResult 1 3 =
      .failed "ValueError" "DEM validation failed: RMSE exceeds threshold" ∧
    demHandlerResult 1 1 = .completed 200 :=
  ⟨(rmse_hard_gate 1 3 (by norm_num)).1 (by norm_num),
   (rmse_hard_gate 1 1 (by norm_num)).2.1 (by norm_num)⟩


theorem circularMean_none_iff (l : List ℝ) : circularMean l = none ↔ l = [] := by
  simp only [circularMean]
  split_ifs with h
  · simp [h]
  · simp [h]

theorem circularMean_eq (l : List ℝ) (hl : l ≠ []) :
    circularMean l =
      some (if degrees (atan2 ((l.map fun a => Real.sin (radians a)).sum / l.length)
              ((l.map fun a => Real.cos (radians a)).sum / l.length)) < 0
            then degrees (atan2 ((l.map fun a => Real.sin (radians a)).sum / l.length)
              ((l.map fun a => Real.cos (radians a)).sum / l.length)) + 360
            else degrees (atan2 ((l.map fun a => Real.sin (radians a)).sum / l.length)
              ((l.map fun a => Real.cos (radians a)).sum / l.length))) := by
  simp only [circularMean, if_neg hl]

theorem norm360_mem (md : ℝ) (h1 : -180 < md) (h2 : md ≤ 180) :
    0 ≤ (if md < 0 then md + 360 else md) ∧ (if md < 0 then md + 360 else md) < 360 := by
  split_ifs <;> constructor <;> linarith

/-- C4: the circular mean aspect is `degrees(atan2(mean sine, mean
cosine))` over the valid angles normalised into [0,360), it is None
exactly when there are zero valid angles, and for the angle set
{10°, 350°} it equals 0°, not 180°. -/
theorem circular_mean_spec :
    (∀ l : List ℝ, circularMean l = none ↔ l = []) ∧
    (∀ (l : List ℝ) (r : ℝ), circularMean l = some r → 0 ≤ r ∧ r < 360) ∧
    circularMean [10, 350] = some 0 := by
  refine ⟨circularMean_none_iff, ?_, ?_⟩
  · intro l r h
    have hl : l ≠ [] := by
      intro he
      rw [(circularMean_none_iff l).mpr he] at h
      exact Option.noConfusion h
    rw [circularMean_eq l hl, Option.some_inj] at h
    subst h
    exact norm360_mem _
      (neg_lt_degrees_of_neg_pi_lt _ (neg_pi_lt_atan2 _ _))
      (degrees_le_of_le_pi _ (atan2_le_pi _ _))
  · have h350 : radians 350 = -(radians 10) + 2 * π := by
      simp only [radians]
      ring
    have hsin : Real.sin (radians 350) = -Real.sin (radians 10) := by
      rw [h350, Real.sin_add_two_pi, Real.sin_neg]
    have hcos : Real.cos (radians 350) = Real.cos (radians 10) := by
      rw [h350, Real.cos_add_two_pi, Real.cos_neg]
    have hpos : 0 < Real.cos (radians 10) := by
      apply Real.cos_pos_of_mem_Ioo
      constructor
      · simp only [radians]
        nlinarith [Real.pi_pos]
      · simp only [radians]
        nlinarith [Real.pi_pos]
    have hl : ([10, 350] : List ℝ) ≠ [] := by simp
    rw [circularMean_eq _ hl]
    have hmap_sin : (([10, 350] : List ℝ).map fun a => Real.sin (radians a)).sum = 0 := by
      simp only [List.map_cons, List.map_nil, List.sum_cons, List.sum_nil, hsin]
      ring
    have hmap_cos : (([10, 350] : List ℝ).map fun a => Real.cos (radians a)).sum
        = 2 * Real.cos (radians 10) := by
      simp only [List.map_cons, List.map_nil, List.sum_cons, List.sum_nil, hcos]
      ring
    have hlen : ((([10, 350] : List ℝ).length : ℕ) : ℝ) = 2 := by simp
    rw [hmap_sin, hmap_cos, hlen,
      show (0:ℝ)/2 = 0 from by norm_num,
      show (2 * Real.cos (radians 10))/2 = Real.cos (radians 10) from by ring,
      atan2_zero_of_nonneg _ hpos.le, degrees_zero, if_neg (lt_irrefl 0)]

/-- Witness for C4: the circular mean of {10°, 350°} is 0, which lies in
[0, 360). -/
theorem circular_mean_spec_witness :
    circularMean [(10:ℝ), 350] = some 0 ∧ (0:ℝ) ≤ 0 ∧ (0:ℝ) < 360 :=
  ⟨circular_mean_spec.2.2, circular_mean_spec.2.1 [10, 350] 0 circular_mean_spec.2.2⟩


theorem slopeInterior_nonneg (e : ℕ → ℕ → ℝ) (csx csy : ℝ) (h w y x : ℕ) :
    0 ≤ slopeInterior e csx csy h w y x := by
  simp only [slopeInterior]
  split_ifs
  · positivity
  · exact le_refl 0

theorem slopeGrid_nonneg (e : ℕ → ℕ → ℝ) (csx csy : ℝ) (h w y x : ℕ) :
    0 ≤ slopeGrid e csx csy h w y x := by
  simp only [slopeGrid, slopeRows]
  split_ifs <;> exact slopeInterior_nonneg e csx csy h w _ _

theorem ninety_sub_degrees_atan2_mem (y x : ℝ) :
    -360 ≤ 90 - degrees (atan2 y x) ∧ 90 - degrees (atan2 y x) < 360 := by
  have h1 := degrees_le_of_le_pi _ (atan2_le_pi y x)
  have h2 := neg_lt_degrees_of_neg_pi_lt _ (neg_pi_lt_atan2 y x)
  constructor <;> linarith

theorem aspectInterior_cases (e sl : ℕ → ℕ → ℝ) (ft csx csy : ℝ) (h w y x : ℕ) :
    aspectInterior e sl ft csx csy h w y x = -1 ∨
      (0 ≤ aspectInterior e sl ft csx csy h w y x ∧
        aspectInterior e sl ft csx csy h w y x < 360) := by
  simp only [aspectInterior]
  split_ifs
  · exact Or.inl rfl
  · right
    exact normalizeAspect_mem _ (ninety_sub_degrees_atan2_mem _ _).1
      (ninety_sub_degrees_atan2_mem _ _).2
  · exact Or.inl rfl

theorem aspectGrid_cases (e sl : ℕ → ℕ → ℝ) (ft csx csy : ℝ) (h w y x : ℕ) :
    aspectGrid e sl ft csx csy h w y x = -1 ∨
      (0 ≤ aspectGrid e sl ft csx csy h w y x ∧
        aspectGrid e sl ft csx csy h w y x < 360) := by
  simp only [aspectGrid, aspectRows]
  split_ifs <;> exact aspectInterior_cases e sl ft csx csy h w _ _

theorem slopeInterior_const (c csx csy : ℝ) (h w y x : ℕ) :
    slopeInterior (fun _ _ => c) csx csy h w y x = 0 := by
  simp only [slopeInterior]
  split_ifs
  · simp [sub_self, zero_div, mul_zero, zero_add, Real.sqrt_zero]
  · rfl

theorem slopeGrid_const (c csx csy : ℝ) (h w y x : ℕ) :
    slopeGrid (fun _ _ => c) csx csy h w y x = 0 := by
  simp only [slopeGrid, slopeRows]
  split_ifs <;> exact slopeInterior_const c csx csy h w _ _

theorem aspectGrid_const (c ft csx csy : ℝ) (h w y x : ℕ) (hft : 0 < ft) :
    aspectGrid (fun _ _ => c) (slopeGrid (fun _ _ => c) csx csy h w)
      ft csx csy h w y x = -1 := by
  simp only [aspectGrid, aspectRows, aspectInterior, slopeGrid_const, if_pos hft]
  split_ifs <;> rfl


/-- C9: for every input grid every cell of the slope grid (edge cells
included) is non-negative; every cell of the aspect grid is either the
flat sentinel -1 or lies in [0,360), never both; and a grid of uniform
elevation yields slope 0 everywhere and the flat sentinel everywhere in
the aspect grid (for any positive flat threshold). -/
theorem slope_aspect_invariants :
    (∀ (e : ℕ → ℕ → ℝ) (csx csy : ℝ) (h w y x : ℕ),
      0 ≤ slopeGrid e csx csy h w y x) ∧
    (∀ (e sl : ℕ → ℕ → ℝ) (ft csx csy : ℝ) (h w y x : ℕ),
      (aspectGrid e sl ft csx csy h w y x = -1 ∨
        (0 ≤ aspectGrid e sl ft csx csy h w y x ∧
          aspectGrid e sl ft csx csy h w y x < 360)) ∧
      ¬ (aspectGrid e sl ft csx csy h w y x = -1 ∧
          0 ≤ aspectGrid e sl ft csx csy h w y x)) ∧
    (∀ (c csx csy ft : ℝ) (h w y x : ℕ), 0 < ft →
      slopeGrid (fun _ _ => c) csx csy h w y x = 0 ∧
      aspectGrid (fun _ _ => c) (slopeGrid (fun _ _ => c) csx csy h w)
        ft csx csy h w y x = -1) := by
  refine ⟨slopeGrid_nonneg, ?_, ?_⟩
  · intro e sl ft csx csy h w y x
    refine ⟨aspectGrid_cases e sl ft csx csy h w y x, fun hc => ?_⟩
    rw [hc.1] at hc
    linarith [hc.2]
  · intro c csx csy ft h w y x hft
    exact ⟨slopeGrid_const c csx csy h w y x, aspectGrid_const c ft csx csy h w y x hft⟩

/-- Witness for C9 on a uniform 2×2 grid of elevation 7 with the default
flat threshold 2. -/
theorem slope_aspect_invariants_witness :
    slopeGrid (fun _ _ => (7:ℝ)) 1 1 2 2 0 0 = 0 ∧
    aspectGrid (fun _ _ => (7:ℝ)) (slopeGrid (fun _ _ => (7:ℝ)) 1 1 2 2)
      2 1 1 2 2 0 0 = -1 :=
  slope_aspect_invariants.2.2 7 1 1 2 2 2 0 0 (by norm_num)

theorem ramp_slope_interior (y x : ℕ) (hy1 : 1 ≤ y) (hy2 : y ≤ 8)
    (hx1 : 1 ≤ x) (hx2 : x ≤ 8) :
    slopeGrid (fun _ c => -(c:ℝ)) 1 1 10 10 y x = 100 := by
  have hx0 : ¬ x = 0 := by omega
  have hy0 : ¬ y = 0 := by omega
  simp only [slopeGrid, slopeRows, slopeInterior]
  rw [if_neg hx0, if_neg (show ¬ x = 10 - 1 by omega), if_neg hy0,
    if_neg (show ¬ y = 10 - 1 by omega),
    if_pos (show 1 ≤ y ∧ y + 1 < 10 ∧ 1 ≤ x ∧ x + 1 < 10 by omega)]
  have hdx : (-(((x + 1 : ℕ)) : ℝ) - -(((x - 1 : ℕ)) : ℝ)) / (2 * 1) = -1 := by
    rw [Nat.cast_sub hx1]
    push_cast
    ring
  have hdy : (-((x : ℕ) : ℝ) - -((x : ℕ) : ℝ)) / (2 * 1) = 0 := by
    ring
  rw [hdx, hdy, show ((-1:ℝ) * -1 + 0 * 0) = 1 by norm_num, Real.sqrt_one, one_mul]

theorem ramp_aspect_interior (y x : ℕ) (hy1 : 1 ≤ y) (hy2 : y ≤ 8)
    (hx1 : 1 ≤ x) (hx2 : x ≤ 8) :
    aspectGrid (fun _ c => -(c:ℝ)) (slopeGrid (fun _ c => -(c:ℝ)) 1 1 10 10)
      2 1 1 10 10 y x = 90 := by
  have hx0 : ¬ x = 0 := by omega
  have hy0 : ¬ y = 0 := by omega
  simp only [aspectGrid, aspectRows, aspectInterior]
  rw [if_neg hx0, if_neg (show ¬ x = 10 - 1 by omega), if_neg hy0,
    if_neg (show ¬ y = 10 - 1 by omega),
    if_pos (show 1 ≤ y ∧ y + 1 < 10 ∧ 1 ≤ x ∧ x + 1 < 10 by omega),
    if_neg (show ¬ slopeGrid (fun _ c => -(c:ℝ)) 1 1 10 10 y x < 2 by
      rw [ramp_slope_interior y x hy1 hy2 hx1 hx2]
      norm_num)]
  have hdx : (-(((x + 1 : ℕ)) : ℝ) - -(((x - 1 : ℕ)) : ℝ)) / (2 * 1) = -1 := by
    rw [Nat.cast_sub hx1]
    push_cast
    ring
  have hdy : (-((x : ℕ) : ℝ) - -((x : ℕ) : ℝ)) / (2 * 1) = 0 := by
    ring
  rw [hdx, hdy, show -(-1:ℝ) = 1 by norm_num,
    atan2_zero_of_nonneg 1 (by norm_num), degrees_zero, sub_zero]
  simp only [normalizeAspect]
  rw [if_neg (by norm_num), if_neg (by norm_num)]

/-- C6: on the uniform east-facing ramp (elevation −x, 1 m cells, 10×10
grid) every interior cell gets slope exactly 100 % and aspect exactly
90°, matching 100·sqrt(dx²+dy²) and normalize(90 − degrees(atan2(dy,
−dx))) with central differences dx = −1, dy = 0. -/
theorem east_ramp_slope_aspect (y x : ℕ) (hy1 : 1 ≤ y) (hy2 : y ≤ 8)
    (hx1 : 1 ≤ x) (hx2 : x ≤ 8) :
    slopeGrid (fun _ c => -(c:ℝ)) 1 1 10 10 y x = 100 ∧
    aspectGrid (fun _ c => -(c:ℝ)) (slopeGrid (fun _ c => -(c:ℝ)) 1 1 10 10)
      2 1 1 10 10 y x = 90 :=
  ⟨ramp_slope_interior y x hy1 hy2 hx1 hx2,
   ramp_aspect_interior y x hy1 hy2 hx1 hx2⟩

/-- Witness for C6 at the interior cell (5,5). -/
theorem east_ramp_slope_aspect_witness :
    slopeGrid (fun _ c => -(c:ℝ)) 1 1 10 10 5 5 = 100 ∧
    aspectGrid (fun _ c => -(c:ℝ)) (slopeGrid (fun _ c => -(c:ℝ)) 1 1 10 10)
      2 1 1 10 10 5 5 = 90 :=
  east_ramp_slope_aspect 5 5 (by norm_num) (by norm_num) (by norm_num) (by norm_num)


theorem calculate_grades_get (ps : List ProfilePoint) (i : ℕ) (p : ProfilePoint)
    (hp : ps.get? i = some p) :
    (calculate_grades ps).get? i = some { p with grade := gradeAt ps i } := by
  have hi : i < ps.length := by
    by_contra hcon
    rw [List.get?_eq_none.mpr (le_of_not_lt hcon)] at hp
    exact Option.noConfusion hp
  simp only [calculate_grades, List.get?_map, List.get?_range hi, Option.map_some', hp]

/-- C7: after grade computation on a non-empty profile, the first point
has grade 0, and each later point whose horizontal distance to its
predecessor is positive has grade 100 × (elevation change) / (horizontal
distance). -/
theorem calculate_grades_spec (ps : List ProfilePoint) (hne : ps ≠ []) :
    ((calculate_grades ps).get? 0).map ProfilePoint.grade = some 0 ∧
    (∀ (i : ℕ) (prev curr : ProfilePoint), 0 < i →
      ps.get? (i - 1) = some prev → ps.get? i = some curr →
      0 < curr.distance - prev.distance →
      ((calculate_grades ps).get? i).map ProfilePoint.grade =
        some (100 * (curr.elevation - prev.elevation)
          / (curr.distance - prev.distance))) := by
  constructor
  · obtain ⟨p, hp⟩ : ∃ p, ps.get? 0 = some p := by
      cases ps with
      | nil => exact absurd rfl hne
      | cons a t => exact ⟨a, rfl⟩
    rw [calculate_grades_get ps 0 p hp]
    rfl
  · intro i prev curr hi hprev hcurr hd
    rw [calculate_grades_get ps i curr hcurr]
    simp only [Option.map_some']
    congr 1
    simp only [gradeAt, if_neg (Nat.pos_iff_ne_zero.mp hi), hprev, hcurr]
    rw [if_pos hd]
    ring

/-- Two-point profile: 1000 m apart, elevations 100 m and 150 m. -/
def demoProfile : List ProfilePoint :=
  [{ distance := 0, elevation := 100, lat := 0, lng := 0, grade := 0 },
   { distance := 1000, elevation := 150, lat := 0, lng := 0, grade := 0 }]

theorem demoProfile_ne_nil : demoProfile ≠ [] := by
  simp [demoProfile]

/-- Witness for C7 on the two-point demo profile: grades 0 and 5 %. -/
theorem calculate_grades_spec_witness :
    ((calculate_grades demoProfile).get? 0).map ProfilePoint.grade = some 0 ∧
    ((calculate_grades demoProfile).get? 1).map ProfilePoint.grade =
      some (100 * ((150:ℝ) - 100) / (1000 - 0)) :=
  ⟨(calculate_grades_spec demoProfile demoProfile_ne_nil).1,
   (calculate_grades_spec demoProfile demoProfile_ne_nil).2 1
     { distance := 0, elevation := 100, lat := 0, lng := 0, grade := 0 }
     { distance := 1000, elevation := 150, lat := 0, lng := 0, grade := 0 }
     (by norm_num) rfl rfl (by norm_num)⟩

theorem foldl_gain_sub_loss (l : List ℝ) (a b : ℝ) :
    l.foldl (fun acc d => if d > 0 then acc + d else acc) a
      - l.foldl (fun acc d => if d > 0 then acc else acc + |d|) b
    = a - b + l.sum := by
  induction l generalizing a b with
  | nil => simp
  | cons d t ih =>
    simp only [List.foldl_cons, List.sum_cons]
    rw [ih]
    split_ifs with hd
    · ring
    · rw [abs_of_nonpos (le_of_not_lt hd)]
      ring

theorem elevDeltas_sum (ps : List ProfilePoint) (h : ps ≠ []) :
    (elevDeltas ps).sum = (ps.getLast h).elevation - (ps.head h).elevation := by
  induction ps with
  | nil => exact absurd rfl h
  | cons p t ih =>
    cases t with
    | nil => simp [elevDeltas]
    | cons q r =>
      have ht : q :: r ≠ [] := by simp
      have hd : elevDeltas (p :: q :: r)
          = (q.elevation - p.elevation) :: elevDeltas (q :: r) := rfl
      have hh : (p :: q :: r).head h = p := rfl
      have hh2 : (q :: r).head ht = q := rfl
      rw [hd, List.sum_cons, ih ht, List.getLast_cons ht, hh, hh2]
      ring

/-- C10: for every non-empty profile, elevationGain − elevationLoss =
netElevationChange = last elevation − first elevation, where gain sums
the positive consecutive elevation deltas and loss the absolute values
of the non-positive ones. -/
theorem gain_loss_net_identity (ps : List ProfilePoint) (h : ps ≠ []) :
    elevationGain ps - elevationLoss ps = netElevationChange ps h ∧
    netElevationChange ps h =
      (ps.getLast h).elevation - (ps.head h).elevation := by
  refine ⟨?_, rfl⟩
  rw [elevationGain, elevationLoss, foldl_gain_sub_loss, elevDeltas_sum ps h,
    netElevationChange]
  ring

/-- Witness for C10 on the two-point demo profile. -/
theorem gain_loss_net_identity_witness :
    elevationGain demoProfile - elevationLoss demoProfile
      = netElevationChange demoProfile demoProfile_ne_nil :=
  (gain_loss_net_identity demoProfile demoProfile_ne_nil).1


theorem haversine_nonneg (lat1 lng1 lat2 lng2 : ℝ) :
    0 ≤ haversine_distance lat1 lng1 lat2 lng2 := by
  simp only [haversine_distance]
  exact mul_nonneg (by norm_num)
    (mul_nonneg (by norm_num) (atan2_nonneg _ _ (Real.sqrt_nonneg _)))

theorem calculate_line_length_nonneg (coords : List (ℝ × ℝ)) :
    0 ≤ calculate_line_length coords := by
  induction coords with
  | nil => exact le_refl 0
  | cons a t ih =>
    cases t with
    | nil => exact le_refl 0
    | cons b r =>
      simp only [calculate_line_length]
      exact add_nonneg (haversine_nonneg _ _ _ _) ih

theorem numSamples_cast (L s : ℝ) (hL : 0 ≤ L) (hs : 0 < s) :
    (((⌈L / s⌉).toNat : ℕ) : ℝ) = ((⌈L / s⌉ : ℤ) : ℝ) := by
  have h1 : (0:ℤ) ≤ ⌈L / s⌉ := Int.ceil_nonneg (div_nonneg hL hs.le)
  exact_mod_cast Int.toNat_of_nonneg h1

theorem sampleDistances_head (L s : ℝ) (hL : 0 ≤ L) :
    (sampleDistances L s).head? = some 0 := by
  simp only [sampleDistances, numSamples]
  rw [List.range_succ_eq_map]
  simp only [List.map_cons, List.head?_cons, Nat.cast_zero, zero_mul,
    min_eq_left hL]

theorem sampleDistances_getLast (L s : ℝ) (hL : 0 ≤ L) (hs : 0 < s) :
    (sampleDistances L s).getLast? = some L := by
  simp only [sampleDistances, numSamples]
  rw [List.range_succ, List.map_append, List.map_cons, List.map_nil,
    List.getLast?_concat]
  have h2 : L / s ≤ (((⌈L / s⌉).toNat : ℕ) : ℝ) := by
    rw [numSamples_cast L s hL hs]
    exact Int.le_ceil _
  have h3 : L ≤ (((⌈L / s⌉).toNat : ℕ) : ℝ) * s := by
    have hm := mul_le_mul_of_nonneg_right h2 hs.le
    rwa [div_mul_cancel₀ L (ne_of_gt hs)] at hm
  rw [min_eq_right h3]

theorem sampleDistances_sorted (L s : ℝ) (hs : 0 < s) :
    List.Chain' (· ≤ ·) (sampleDistances L s) := by
  simp only [sampleDistances, numSamples]
  rw [List.chain'_map, List.chain'_range_succ]
  intro m _
  refine min_le_min (mul_le_mul_of_nonneg_right ?_ hs.le) (le_refl L)
  exact_mod_cast Nat.le_succ m

theorem sampleDistances_get (L s : ℝ) (i : ℕ)
    (hi : i < (sampleDistances L s).length) :
    (sampleDistances L s).get ⟨i, hi⟩ = min ((i:ℝ) * s) L := by
  simp only [sampleDistances] at hi ⊢
  rw [List.get_map, List.get_range]

theorem sampleDistances_concrete :
    sampleDistances 1000 250 = [0, 250, 500, 750, 1000] := by
  have hceil : ⌈(1000:ℝ)/250⌉ = 4 := by
    rw [show (1000:ℝ)/250 = ((4:ℤ):ℝ) by norm_num, Int.ceil_intCast]
  have hn : numSamples 1000 250 = 5 := by
    simp only [numSamples, hceil]
    rfl
  simp only [sampleDistances, hn]
  norm_num [List.range_succ, min_def]

/-- C5: the profile sample distances for a polyline are 0, s, 2s, …
capped at the total haversine line length — the list starts at 0, ends
exactly at the total length, is non-decreasing, and its i-th entry is
min(i·s, length); for a line 1000 m long with spacing 250 the distances
are [0, 250, 500, 750, 1000]. -/
theorem profile_sample_distances_spec :
    (∀ (coords : List (ℝ × ℝ)) (s : ℝ), 0 < s →
      (sampleDistances (calculate_line_length coords) s).head? = some 0 ∧
      (sampleDistances (calculate_line_length coords) s).getLast?
        = some (calculate_line_length coords) ∧
      List.Chain' (· ≤ ·) (sampleDistances (calculate_line_length coords) s) ∧
      ∀ (i : ℕ) (hi : i < (sampleDistances (calculate_line_length coords) s).length),
        (sampleDistances (calculate_line_length coords) s).get ⟨i, hi⟩
          = min ((i:ℝ) * s) (calculate_line_length coords)) ∧
    sampleDistances 1000 250 = [0, 250, 500, 750, 1000] := by
  refine ⟨fun coords s hs => ⟨?_, ?_, ?_, ?_⟩, sampleDistances_concrete⟩
  · exact sampleDistances_head _ s (calculate_line_length_nonneg coords)
  · exact sampleDistances_getLast _ s (calculate_line_length_nonneg coords) hs
  · exact sampleDistances_sorted _ s hs
  · exact fun i hi => sampleDistances_get _ s i hi

/-- Witness for C5 on a concrete degenerate polyline and the concrete
1000 m / 250 m schedule. -/
theorem profile_sample_distances_spec_witness :
    (sampleDistances (calculate_line_length [((0:ℝ), (0:ℝ)), ((0:ℝ), (0:ℝ))]) 250).head?
      = some 0 ∧
    sampleDistances 1000 250 = [0, 250, 500, 750, 1000] :=
  ⟨(profile_sample_distances_spec.1 [(0, 0), (0, 0)] 250 (by norm_num)).1,
   profile_sample_distances_spec.2⟩

end
